import Mathlib

/-!
# Verification of the Windows-MCP accessibility-tree capture core

Shallow embedding of the tree-capture subsystem of the Windows-MCP
repository (Rust), together with proofs about its behaviour.

Embedded components and their sources:

* `WindowsMcpError`                  — `src/native/wmcp-core/src/errors.rs`
* `COMGuard`                         — `src/native/wmcp-core/src/com.rs`
* `control_type_name`                — `src/native/wmcp-core/src/tree/mod.rs`
* `build_cache_request`              — `src/native/wmcp-core/src/tree/mod.rs`
* `Core.walk_element`, `Core.collect_children`, `Core.capture_window`,
  `Core.capture_tree_raw`            — `src/native/wmcp-core/src/tree/mod.rs`
* `Legacy.walk_element`, `Legacy.collect_children`, `Legacy.capture_window`,
  `Legacy.capture_tree`              — `src/native/src/tree/mod.rs` (the
  single-crate revision of the same subsystem, kept in the repository)
* `Py.capture_tree`                  — `src/native/wmcp-pyo3/src/lib.rs`
* `TreeElementSnapshot`              — `src/native/wmcp-core/src/tree/element.rs`

COM calls are modelled by an explicit environment `ComEnv` recording the
outcome of every fallible provider call; `Option` models Rust `Result`
where the code only ever asks "did it succeed" (`.ok()`).  The captured
bounding rectangle is produced in the source by casting the four `i32`
fields of a `RECT` to `f64` (an exact conversion), so rectangle
coordinates are modelled as `Int`.  Rayon's ordered parallel
`collect` (which preserves input order) is modelled by sequential
`List.filterMap`.
-/

namespace WindowsMcp

/-- `WindowsMcpError` — `src/native/wmcp-core/src/errors.rs`.  One variant
per subsystem, each carrying a message string. -/
inductive WindowsMcpError : Type where
  | SystemInfoError (msg : String)
  | ComError (msg : String)
  | TreeError (msg : String)
  | InputError (msg : String)
  | ScreenshotError (msg : String)
deriving DecidableEq

/-- `COMGuard` — `src/native/wmcp-core/src/com.rs`.  RAII guard for the
thread's COM apartment; `should_uninit = true` is the spec's `Owned`
state (a balancing `CoUninitialize` is required), `false` is `Foreign`. -/
structure COMGuard : Type where
  should_uninit : Bool
deriving DecidableEq

/-- One hexadecimal digit, uppercase (for `HRESULT 0x{:08X}` formatting). -/
def hexDigit (n : Nat) : Char :=
  if n < 10 then Char.ofNat (48 + n) else Char.ofNat (55 + n)

/-- Eight-digit uppercase hexadecimal rendering of a 32-bit value, as
produced by the source's `format!("{:08X}", v)`. -/
def hex8 (n : Nat) : String :=
  ((List.range 8).map (fun i => hexDigit (n / 16 ^ (7 - i) % 16))).asString

/-- The `RPC_E_CHANGED_MODE` HRESULT (thread already has an STA apartment). -/
def RPC_E_CHANGED_MODE : Nat := 0x80010106

/-- `COMGuard::init` — `src/native/wmcp-core/src/com.rs` lines 31–62.
The model takes the `HRESULT` returned by `CoInitializeEx` as input.
The `Bool` in the result records whether the `log::warn!` diagnostic for
`RPC_E_CHANGED_MODE` was emitted. -/
def COMGuard.init (hresult_value : Nat) : Except WindowsMcpError (COMGuard × Bool) :=
  if hresult_value = 0x0 then
    .ok (⟨true⟩, false)
  else if hresult_value = 0x1 then
    .ok (⟨true⟩, false)
  else if hresult_value = RPC_E_CHANGED_MODE then
    .ok (⟨false⟩, true)
  else
    .error (.ComError ("CoInitializeEx failed: HRESULT 0x" ++ hex8 hresult_value))

/-- `Drop for COMGuard` — `src/native/wmcp-core/src/com.rs` lines 65–71:
`CoUninitialize` runs on drop exactly when `should_uninit` is set. -/
def COMGuard.dropCallsCoUninitialize (g : COMGuard) : Bool :=
  g.should_uninit

/-- `control_type_name` — `src/native/wmcp-core/src/tree/mod.rs` lines
49–94.  The numeric values are the Windows SDK `UIA_*ControlTypeId`
constants the source matches on symbolically; unmapped ids resolve to
`"Unknown"`. -/
def control_type_name (id : Int) : String :=
  if id = 50040 then "AppBar"
  else if id = 50000 then "Button"
  else if id = 50001 then "Calendar"
  else if id = 50002 then "CheckBox"
  else if id = 50003 then "ComboBox"
  else if id = 50025 then "Custom"
  else if id = 50028 then "DataGrid"
  else if id = 50029 then "DataItem"
  else if id = 50030 then "Document"
  else if id = 50004 then "Edit"
  else if id = 50026 then "Group"
  else if id = 50034 then "Header"
  else if id = 50035 then "HeaderItem"
  else if id = 50005 then "Hyperlink"
  else if id = 50006 then "Image"
  else if id = 50008 then "List"
  else if id = 50007 then "ListItem"
  else if id = 50010 then "MenuBar"
  else if id = 50009 then "Menu"
  else if id = 50011 then "MenuItem"
  else if id = 50033 then "Pane"
  else if id = 50012 then "ProgressBar"
  else if id = 50013 then "RadioButton"
  else if id = 50014 then "ScrollBar"
  else if id = 50039 then "SemanticZoom"
  else if id = 50038 then "Separator"
  else if id = 50015 then "Slider"
  else if id = 50016 then "Spinner"
  else if id = 50031 then "SplitButton"
  else if id = 50017 then "StatusBar"
  else if id = 50018 then "Tab"
  else if id = 50019 then "TabItem"
  else if id = 50036 then "Table"
  else if id = 50020 then "Text"
  else if id = 50027 then "Thumb"
  else if id = 50037 then "TitleBar"
  else if id = 50021 then "ToolBar"
  else if id = 50022 then "ToolTip"
  else if id = 50023 then "Tree"
  else if id = 50024 then "TreeItem"
  else if id = 50032 then "Window"
  else "Unknown"

/-- Model of a cached `IUIAutomationElement`.  Every scalar getter
(`CachedName()`, `CachedIsEnabled()`, …) returns `Result<_>` in the
source; `none` models a failed read.  The last field models
`GetCachedChildren()`: `none` is a failed call; otherwise the pair holds
the result of `IUIAutomationElementArray::Length()` (`none` = failure)
and the per-index outcomes of `GetElement(i)` (`none` = failure at that
index, indices past the list length also fail). -/
inductive CachedElement : Type where
  | mk
    (cachedName cachedAutomationId cachedLocalizedControlType
      cachedClassName cachedAcceleratorKey : Option String)
    (cachedControlType : Option Int)
    (cachedBoundingRectangle : Option (Int × Int × Int × Int))
    (cachedIsOffscreen cachedIsEnabled cachedIsControlElement
      cachedHasKeyboardFocus cachedIsKeyboardFocusable : Option Bool)
    (cachedChildren : Option (Option Int × List (Option CachedElement)))

def CachedElement.cachedName : CachedElement → Option String
  | .mk v _ _ _ _ _ _ _ _ _ _ _ _ => v

def CachedElement.cachedAutomationId : CachedElement → Option String
  | .mk _ v _ _ _ _ _ _ _ _ _ _ _ => v

def CachedElement.cachedLocalizedControlType : CachedElement → Option String
  | .mk _ _ v _ _ _ _ _ _ _ _ _ _ => v

def CachedElement.cachedClassName : CachedElement → Option String
  | .mk _ _ _ v _ _ _ _ _ _ _ _ _ => v

def CachedElement.cachedAcceleratorKey : CachedElement → Option String
  | .mk _ _ _ _ v _ _ _ _ _ _ _ _ => v

def CachedElement.cachedControlType : CachedElement → Option Int
  | .mk _ _ _ _ _ v _ _ _ _ _ _ _ => v

def CachedElement.cachedBoundingRectangle : CachedElement → Option (Int × Int × Int × Int)
  | .mk _ _ _ _ _ _ v _ _ _ _ _ _ => v

def CachedElement.cachedIsOffscreen : CachedElement → Option Bool
  | .mk _ _ _ _ _ _ _ v _ _ _ _ _ => v

def CachedElement.cachedIsEnabled : CachedElement → Option Bool
  | .mk _ _ _ _ _ _ _ _ v _ _ _ _ => v

def CachedElement.cachedIsControlElement : CachedElement → Option Bool
  | .mk _ _ _ _ _ _ _ _ _ v _ _ _ => v

def CachedElement.cachedHasKeyboardFocus : CachedElement → Option Bool
  | .mk _ _ _ _ _ _ _ _ _ _ v _ _ => v

def CachedElement.cachedIsKeyboardFocusable : CachedElement → Option Bool
  | .mk _ _ _ _ _ _ _ _ _ _ _ v _ => v

def CachedElement.cachedChildren :
    CachedElement → Option (Option Int × List (Option CachedElement))
  | .mk _ _ _ _ _ _ _ _ _ _ _ _ v => v

/-- `TreeElementSnapshot` — `src/native/wmcp-core/src/tree/element.rs`
lines 13–29.  Field order matches the Rust struct declaration (which is
also the serde serialization order). -/
inductive TreeElementSnapshot : Type where
  | mk
    (name automation_id control_type localized_control_type class_name : String)
    (bounding_rect : Int × Int × Int × Int)
    (is_offscreen is_enabled is_control_element
      has_keyboard_focus is_keyboard_focusable : Bool)
    (accelerator_key : String)
    (depth : Nat)
    (children : List TreeElementSnapshot)

def TreeElementSnapshot.name : TreeElementSnapshot → String
  | .mk v _ _ _ _ _ _ _ _ _ _ _ _ _ => v

def TreeElementSnapshot.automation_id : TreeElementSnapshot → String
  | .mk _ v _ _ _ _ _ _ _ _ _ _ _ _ => v

def TreeElementSnapshot.control_type : TreeElementSnapshot → String
  | .mk _ _ v _ _ _ _ _ _ _ _ _ _ _ => v

def TreeElementSnapshot.localized_control_type : TreeElementSnapshot → String
  | .mk _ _ _ v _ _ _ _ _ _ _ _ _ _ => v

def TreeElementSnapshot.class_name : TreeElementSnapshot → String
  | .mk _ _ _ _ v _ _ _ _ _ _ _ _ _ => v

def TreeElementSnapshot.bounding_rect : TreeElementSnapshot → Int × Int × Int × Int
  | .mk _ _ _ _ _ v _ _ _ _ _ _ _ _ => v

def TreeElementSnapshot.is_offscreen : TreeElementSnapshot → Bool
  | .mk _ _ _ _ _ _ v _ _ _ _ _ _ _ => v

def TreeElementSnapshot.is_enabled : TreeElementSnapshot → Bool
  | .mk _ _ _ _ _ _ _ v _ _ _ _ _ _ => v

def TreeElementSnapshot.is_control_element : TreeElementSnapshot → Bool
  | .mk _ _ _ _ _ _ _ _ v _ _ _ _ _ => v

def TreeElementSnapshot.has_keyboard_focus : TreeElementSnapshot → Bool
  | .mk _ _ _ _ _ _ _ _ _ v _ _ _ _ => v

def TreeElementSnapshot.is_keyboard_focusable : TreeElementSnapshot → Bool
  | .mk _ _ _ _ _ _ _ _ _ _ v _ _ _ => v

def TreeElementSnapshot.accelerator_key : TreeElementSnapshot → String
  | .mk _ _ _ _ _ _ _ _ _ _ _ v _ _ => v

def TreeElementSnapshot.depth : TreeElementSnapshot → Nat
  | .mk _ _ _ _ _ _ _ _ _ _ _ _ v _ => v

def TreeElementSnapshot.children : TreeElementSnapshot → List TreeElementSnapshot
  | .mk _ _ _ _ _ _ _ _ _ _ _ _ _ v => v

/-- The twelve UIA properties registered by `build_cache_request`
(`src/native/wmcp-core/src/tree/mod.rs` lines 110–123). -/
inductive UiaProperty : Type where
  | name
  | automationId
  | controlType
  | localizedControlType
  | className
  | boundingRectangle
  | isOffscreen
  | isEnabled
  | isControlElement
  | hasKeyboardFocus
  | isKeyboardFocusable
  | acceleratorKey
deriving DecidableEq

/-- The `properties` array of `build_cache_request`, in source order. -/
def cacheRequestProperties : List UiaProperty :=
  [.name, .automationId, .controlType, .localizedControlType, .className,
   .boundingRectangle, .isOffscreen, .isEnabled, .isControlElement,
   .hasKeyboardFocus, .isKeyboardFocusable, .acceleratorKey]

/-- Environment recording the outcome of every fallible COM call a
window-capture worker performs.  `Option Unit` models `Result<T>` where
the code only asks whether the call succeeded; `none` is failure. -/
structure ComEnv : Type where
  /-- `HRESULT` returned by `CoInitializeEx` on the worker thread. -/
  coInitResult : Nat
  /-- Outcome of `CoCreateInstance(&CUIAutomation, ..)`. -/
  coCreateInstance : Option Unit
  /-- Outcome of `IUIAutomation::CreateCacheRequest()`. -/
  createCacheRequest : Option Unit
  /-- Outcome of `SetTreeScope(TreeScope_Subtree)`. -/
  setTreeScope : Option Unit
  /-- Outcome of `AddProperty(p)` for each registered property. -/
  addProperty : UiaProperty → Option Unit
  /-- Outcome of `ElementFromHandleBuildCache(HWND(h), &cache_req)`:
  `none` when the window is gone, denies access, or the call fails;
  otherwise the root element with the whole subtree cached. -/
  elementFromHandleBuildCache : Int → Option CachedElement

/-- The `for prop in properties` loop of `build_cache_request`: stops at
the first failing `AddProperty`. -/
def addProperties (env : ComEnv) : List UiaProperty → Except WindowsMcpError Unit
  | [] => .ok ()
  | p :: rest =>
    match env.addProperty p with
    | none => .error (.ComError "AddProperty")
    | some _ => addProperties env rest

/-- `build_cache_request` — `src/native/wmcp-core/src/tree/mod.rs` lines
100–130.  The error messages name the failing step (the source appends
the COM error display, which has no counterpart in the model). -/
def build_cache_request (env : ComEnv) : Except WindowsMcpError Unit :=
  match env.createCacheRequest with
  | none => .error (.ComError "CreateCacheRequest")
  | some _ =>
    match env.setTreeScope with
    | none => .error (.ComError "SetTreeScope")
    | some _ => addProperties env cacheRequestProperties

/-- `MAX_CHILDREN_PER_NODE` — `src/native/wmcp-core/src/tree/mod.rs`
line 205. -/
def MAX_CHILDREN_PER_NODE : Int := 512

/-- Shared body of the two `collect_children` revisions, abstracted over
the child cap (`some 512` in wmcp-core, absent in the legacy revision)
and over the recursive walk applied to each child.  Mirrors
`src/native/wmcp-core/src/tree/mod.rs` lines 207–229 /
`src/native/src/tree/mod.rs` lines 355–377: a failed
`GetCachedChildren` or `Length()` (or a non-positive length) yields no
children; otherwise indices `0..len` are fetched in order and failing
`GetElement(i)` calls are skipped. -/
def collect_children_with (cap : Option Int)
    (walk : CachedElement → TreeElementSnapshot)
    (parent : CachedElement) : List TreeElementSnapshot :=
  match parent.cachedChildren with
  | none => []
  | some (lenResult, elems) =>
    match lenResult with
    | none => []
    | some n =>
      if 0 < n then
        let len : Int := match cap with
          | some c => min n c
          | none => n
        (elems.take len.toNat).filterMap (fun oc => oc.map walk)
      else []

/-- The scalar-property part of `walk_element`: every failed read
collapses to its documented default (`bstr_or_empty!` / `bool_or_false!`
macros and the explicit `unwrap_or` calls in
`src/native/wmcp-core/src/tree/mod.rs` lines 136–177). -/
def walkSnap (e : CachedElement) (depth : Nat)
    (children : List TreeElementSnapshot) : TreeElementSnapshot :=
  .mk
    (e.cachedName.getD "")
    (e.cachedAutomationId.getD "")
    (match e.cachedControlType with
      | some id => control_type_name id
      | none => "Unknown")
    (e.cachedLocalizedControlType.getD "")
    (e.cachedClassName.getD "")
    (e.cachedBoundingRectangle.getD (0, 0, 0, 0))
    (e.cachedIsOffscreen.getD false)
    (e.cachedIsEnabled.getD false)
    (e.cachedIsControlElement.getD false)
    (e.cachedHasKeyboardFocus.getD false)
    (e.cachedIsKeyboardFocusable.getD false)
    (e.cachedAcceleratorKey.getD "")
    depth
    children

/-- Recursion skeleton of `walk_element`.  The source recurses on the
element with the guard `depth < max_depth`; the model adds a fuel
argument (instantiated with `max_depth - depth`, see
`Core.walk_element_eq`) solely to make the recursion structural: at
every reachable call `depth < max_depth` implies `0 < fuel`, so the
fuel never cuts a traversal the source would perform. -/
def walkAux (cap : Option Int) : Nat → CachedElement → Nat → Nat → TreeElementSnapshot
  | 0, e, depth, _ => walkSnap e depth []
  | fuel + 1, e, depth, maxDepth =>
    walkSnap e depth
      (if depth < maxDepth then
        collect_children_with cap (fun c => walkAux cap fuel c (depth + 1) maxDepth) e
      else [])

namespace Core

/-- `collect_children` — `src/native/wmcp-core/src/tree/mod.rs` lines
207–229 (caps the child count at `MAX_CHILDREN_PER_NODE`). -/
def collect_children (walk : CachedElement → TreeElementSnapshot)
    (parent : CachedElement) : List TreeElementSnapshot :=
  collect_children_with (some MAX_CHILDREN_PER_NODE) walk parent

/-- `walk_element` — `src/native/wmcp-core/src/tree/mod.rs` lines 152–201. -/
def walk_element (e : CachedElement) (depth maxDepth : Nat) : TreeElementSnapshot :=
  walkAux (some MAX_CHILDREN_PER_NODE) (maxDepth - depth) e depth maxDepth

end Core

namespace Legacy

/-- `collect_children` — `src/native/src/tree/mod.rs` lines 355–377
(no cap on the child count). -/
def collect_children (walk : CachedElement → TreeElementSnapshot)
    (parent : CachedElement) : List TreeElementSnapshot :=
  collect_children_with none walk parent

/-- `walk_element` — `src/native/src/tree/mod.rs` lines 276–345. -/
def walk_element (e : CachedElement) (depth maxDepth : Nat) : TreeElementSnapshot :=
  walkAux none (maxDepth - depth) e depth maxDepth

end Legacy

/-- Shared body of the two `capture_window` revisions: acquire the COM
guard, create the automation factory, build the cache request, resolve
the handle with the subtree cached, walk from depth 0.  Every step uses
`.ok()?`, so any failure yields `none`. -/
def capture_window_with (walk : CachedElement → Nat → Nat → TreeElementSnapshot)
    (env : ComEnv) (handle : Int) (max_depth : Nat) : Option TreeElementSnapshot := do
  let _com_guard ← (COMGuard.init env.coInitResult).toOption
  let _uia ← env.coCreateInstance
  let _cache_req ← (build_cache_request env).toOption
  let root ← env.elementFromHandleBuildCache handle
  some (walk root 0 max_depth)

namespace Core

/-- `capture_window` — `src/native/wmcp-core/src/tree/mod.rs` lines
235–250. -/
def capture_window (env : ComEnv) (handle : Int) (max_depth : Nat) :
    Option TreeElementSnapshot :=
  capture_window_with walk_element env handle max_depth

/-- `capture_tree_raw` — `src/native/wmcp-core/src/tree/mod.rs` lines
264–273.  `max_depth` is clamped to 50; null handles are filtered out;
failed captures are dropped.  Rayon's order-preserving parallel collect
is modelled by sequential `filterMap`. -/
def capture_tree_raw (env : ComEnv) (window_handles : List Int) (max_depth : Nat) :
    List TreeElementSnapshot :=
  let md := min max_depth 50
  (window_handles.filter (fun h => h != 0)).filterMap
    (fun h => capture_window env h md)

end Core

namespace Legacy

/-- `capture_window` — `src/native/src/tree/mod.rs` lines 395–424. -/
def capture_window (env : ComEnv) (handle : Int) (max_depth : Nat) :
    Option TreeElementSnapshot :=
  capture_window_with walk_element env handle max_depth

/-- `capture_tree` — `src/native/src/tree/mod.rs` lines 485–510 (the
`#[pyfunction]` of the single-crate revision): clamps
`max_depth.unwrap_or(50)` to 200, no null-handle filter.  The model
returns the snapshot list of the traversal phase (the Python-dict
conversion is marshalling). -/
def capture_tree (env : ComEnv) (window_handles : List Int) (max_depth : Option Nat) :
    List TreeElementSnapshot :=
  let md := min (max_depth.getD 50) 200
  window_handles.filterMap (fun h => capture_window env h md)

end Legacy

/-- `MAX_HANDLE_COUNT` — `src/native/wmcp-pyo3/src/lib.rs` line 17. -/
def MAX_HANDLE_COUNT : Nat := 256

/-- Modelled from the spec: `wmcp_core::tree::MAX_TREE_DEPTH` is
referenced by `wmcp-pyo3/src/lib.rs` and `wmcp-cli/src/bin/wmcp-worker.rs`
but the wmcp-core revision defining it is not among the sources; the
spec (§4.6) fixes the default depth at 50, and the wmcp-pyo3 doc comment
states `MAX_TREE_DEPTH = 50`. -/
def MAX_TREE_DEPTH : Nat := 50

namespace Py

/-- `capture_tree` — `src/native/wmcp-pyo3/src/lib.rs` lines 143–167:
rejects handle lists longer than `MAX_HANDLE_COUNT` with a runtime
error before any capture work, otherwise delegates to
`wmcp_core::tree::capture_tree_raw` with default depth
`MAX_TREE_DEPTH`.  The model returns the snapshot list (the Python-dict
conversion is marshalling). -/
def capture_tree (env : ComEnv) (window_handles : List Int) (max_depth : Option Nat) :
    Except String (List TreeElementSnapshot) :=
  if window_handles.length > MAX_HANDLE_COUNT then
    .error ("window_handles length " ++ toString window_handles.length ++
      " exceeds maximum " ++ toString MAX_HANDLE_COUNT)
  else
    .ok (Core.capture_tree_raw env window_handles (max_depth.getD MAX_TREE_DEPTH))

end Py

/-- `AllNodes p s`: property `p` holds at every node of the snapshot
tree `s` (the node itself and, recursively, all descendants). -/
inductive AllNodes (p : TreeElementSnapshot → Prop) : TreeElementSnapshot → Prop where
  | node (s : TreeElementSnapshot) :
      p s → (∀ c ∈ s.children, AllNodes p c) → AllNodes p s

/-! ## Basic lemmas about the walker -/

@[simp]
theorem walkSnap_depth (e : CachedElement) (d : Nat) (cs : List TreeElementSnapshot) :
    (walkSnap e d cs).depth = d := rfl

@[simp]
theorem walkSnap_children (e : CachedElement) (d : Nat) (cs : List TreeElementSnapshot) :
    (walkSnap e d cs).children = cs := rfl

@[simp]
theorem walkAux_depth (cap : Option Int) (fuel : Nat) (e : CachedElement) (d m : Nat) :
    (walkAux cap fuel e d m).depth = d := by
  cases fuel <;> rfl

theorem walkAux_zero (cap : Option Int) (e : CachedElement) (d m : Nat) :
    walkAux cap 0 e d m = walkSnap e d [] := rfl

theorem walkAux_succ (cap : Option Int) (fuel : Nat) (e : CachedElement) (d m : Nat) :
    walkAux cap (fuel + 1) e d m =
      walkSnap e d
        (if d < m then
          collect_children_with cap (fun c => walkAux cap fuel c (d + 1) m) e
        else []) := rfl

/-- Every entry of `collect_children_with` is the walk of some cached child. -/
theorem mem_collect_children_with {cap : Option Int}
    {walk : CachedElement → TreeElementSnapshot} {parent : CachedElement}
    {s : TreeElementSnapshot} (h : s ∈ collect_children_with cap walk parent) :
    ∃ ce, s = walk ce := by
  unfold collect_children_with at h
  rcases hch : parent.cachedChildren with _ | ⟨lenResult, elems⟩ <;>
    simp only [hch] at h
  · simp at h
  · rcases lenResult with _ | n
    · simp at h
    · by_cases hn : 0 < n
      · simp only [hn, if_pos] at h
        rcases List.mem_filterMap.mp h with ⟨oc, _, hoc⟩
        rcases oc with _ | ce
        · simp at hoc
        · exact ⟨ce, by simpa using hoc.symm⟩
      · simp [hn] at h

/-- The wmcp-core `collect_children` never returns more than
`MAX_CHILDREN_PER_NODE` children. -/
theorem length_collect_children_core
    (walk : CachedElement → TreeElementSnapshot) (parent : CachedElement) :
    (collect_children_with (some MAX_CHILDREN_PER_NODE) walk parent).length ≤ 512 := by
  unfold collect_children_with
  rcases hch : parent.cachedChildren with _ | ⟨lenResult, elems⟩ <;>
    simp only [hch]
  · simp
  · rcases lenResult with _ | n
    · simp
    · by_cases hn : 0 < n
      · simp only [hn, if_pos]
        calc ((elems.take (min n MAX_CHILDREN_PER_NODE).toNat).filterMap
                (fun oc => oc.map walk)).length
            ≤ (elems.take (min n MAX_CHILDREN_PER_NODE).toNat).length :=
              List.length_filterMap_le _ _
          _ ≤ (min n MAX_CHILDREN_PER_NODE).toNat := by
              simp [List.length_take]
          _ ≤ (512 : Int).toNat := by
              exact Int.toNat_le_toNat (min_le_right _ _)
          _ = 512 := rfl
      · simp [hn]

/-- `walk_element` in source shape: the wmcp-core walker reads the
cached scalars, and recurses through `collect_children` exactly when
`depth < max_depth` (`src/native/wmcp-core/src/tree/mod.rs` lines
179–183). -/
theorem Core.walk_element_eq (e : CachedElement) (d m : Nat) :
    Core.walk_element e d m =
      walkSnap e d
        (if d < m then
          Core.collect_children (fun c => Core.walk_element c (d + 1) m) e
        else []) := by
  unfold Core.walk_element Core.collect_children
  by_cases h : d < m
  · have hm : m - d = (m - (d + 1)) + 1 := by omega
    rw [hm, walkAux_succ]
  · have hm : m - d = 0 := by omega
    rw [hm, walkAux_zero]
    simp [h]

/-! ## AllNodes invariants of the walker -/

/-- Every node of a walk started at `d ≤ m` has depth at most `m`. -/
theorem allNodes_depth_le (cap : Option Int) :
    ∀ (fuel : Nat) (e : CachedElement) (d m : Nat), d ≤ m →
      AllNodes (fun n => n.depth ≤ m) (walkAux cap fuel e d m) := by
  intro fuel
  induction fuel with
  | zero =>
    intro e d m hdm
    exact .node _ (by simpa using hdm) (by simp [walkAux_zero])
  | succ fuel ih =>
    intro e d m hdm
    refine .node _ (by simpa using hdm) ?_
    intro c hc
    rw [walkAux_succ, walkSnap_children] at hc
    by_cases hlt : d < m
    · rw [if_pos hlt] at hc
      rcases mem_collect_children_with hc with ⟨ce, rfl⟩
      exact ih ce (d + 1) m hlt
    · rw [if_neg hlt] at hc
      simp at hc

/-- Every child's depth is its parent's depth plus one. -/
theorem allNodes_child_depth (cap : Option Int) :
    ∀ (fuel : Nat) (e : CachedElement) (d m : Nat),
      AllNodes (fun n => ∀ c ∈ n.children, c.depth = n.depth + 1)
        (walkAux cap fuel e d m) := by
  intro fuel
  induction fuel with
  | zero =>
    intro e d m
    exact .node _ (by simp [walkAux_zero]) (by simp [walkAux_zero])
  | succ fuel ih =>
    intro e d m
    refine .node _ ?_ ?_
    · intro c hc
      rw [walkAux_succ, walkSnap_children] at hc
      by_cases hlt : d < m
      · rw [if_pos hlt] at hc
        rcases mem_collect_children_with hc with ⟨ce, rfl⟩
        simp
      · rw [if_neg hlt] at hc
        simp at hc
    · intro c hc
      rw [walkAux_succ, walkSnap_children] at hc
      by_cases hlt : d < m
      · rw [if_pos hlt] at hc
        rcases mem_collect_children_with hc with ⟨ce, rfl⟩
        exact ih ce (d + 1) m
      · rw [if_neg hlt] at hc
        simp at hc

/-- A node whose depth has reached `m` has no children. -/
theorem allNodes_children_empty (cap : Option Int) :
    ∀ (fuel : Nat) (e : CachedElement) (d m : Nat),
      AllNodes (fun n => m ≤ n.depth → n.children = [])
        (walkAux cap fuel e d m) := by
  intro fuel
  induction fuel with
  | zero =>
    intro e d m
    exact .node _ (by simp [walkAux_zero]) (by simp [walkAux_zero])
  | succ fuel ih =>
    intro e d m
    refine .node _ ?_ ?_
    · intro hmd
      rw [walkAux_succ, walkSnap_children]
      rw [walkAux_depth] at hmd
      rw [if_neg (by omega)]
    · intro c hc
      rw [walkAux_succ, walkSnap_children] at hc
      by_cases hlt : d < m
      · rw [if_pos hlt] at hc
        rcases mem_collect_children_with hc with ⟨ce, rfl⟩
        exact ih ce (d + 1) m
      · rw [if_neg hlt] at hc
        simp at hc

/-- With the wmcp-core cap, every node has at most 512 children. -/
theorem allNodes_children_le_512 :
    ∀ (fuel : Nat) (e : CachedElement) (d m : Nat),
      AllNodes (fun n => n.children.length ≤ 512)
        (walkAux (some MAX_CHILDREN_PER_NODE) fuel e d m) := by
  intro fuel
  induction fuel with
  | zero =>
    intro e d m
    exact .node _ (by simp [walkAux_zero]) (by simp [walkAux_zero])
  | succ fuel ih =>
    intro e d m
    refine .node _ ?_ ?_
    · rw [walkAux_succ, walkSnap_children]
      by_cases hlt : d < m
      · rw [if_pos hlt]
        exact length_collect_children_core _ e
      · rw [if_neg hlt]
        simp
    · intro c hc
      rw [walkAux_succ, walkSnap_children] at hc
      by_cases hlt : d < m
      · rw [if_pos hlt] at hc
        rcases mem_collect_children_with hc with ⟨ce, rfl⟩
        exact ih ce (d + 1) m
      · rw [if_neg hlt] at hc
        simp at hc

/-! ## Lemmas about the capture pipeline -/

/-- `capture_window_with` as the explicit chain of `Option` binds its
`do` block desugars to. -/
theorem capture_window_with_eq
    (walk : CachedElement → Nat → Nat → TreeElementSnapshot)
    (env : ComEnv) (h : Int) (d : Nat) :
    capture_window_with walk env h d =
      (COMGuard.init env.coInitResult).toOption.bind (fun _ =>
        env.coCreateInstance.bind (fun _ =>
          (build_cache_request env).toOption.bind (fun _ =>
            (env.elementFromHandleBuildCache h).bind (fun root =>
              some (walk root 0 d))))) := rfl

/-- A successful `capture_window_with` is a walk, from depth 0, of the
root element that `ElementFromHandleBuildCache` returned. -/
theorem capture_window_with_some
    {walk : CachedElement → Nat → Nat → TreeElementSnapshot} {env : ComEnv}
    {h : Int} {d : Nat} {s : TreeElementSnapshot}
    (hs : capture_window_with walk env h d = some s) :
    ∃ root, env.elementFromHandleBuildCache h = some root ∧ s = walk root 0 d := by
  unfold capture_window_with at hs
  simp only [bind, Option.bind_eq_some] at hs
  rcases hs with ⟨g, _, u, _, r, _, root, hroot, hwalk⟩
  exact ⟨root, hroot, (Option.some.injEq _ _ ▸ hwalk).symm⟩

/-- Every snapshot collected by the wmcp-core dispatcher is a walk of
some cached root with depth bound `min max_depth 50`. -/
theorem mem_capture_tree_raw {env : ComEnv} {hs : List Int} {d : Nat}
    {s : TreeElementSnapshot} (h : s ∈ Core.capture_tree_raw env hs d) :
    ∃ root, s = Core.walk_element root 0 (min d 50) := by
  unfold Core.capture_tree_raw at h
  rcases List.mem_filterMap.mp h with ⟨hd, _, hcw⟩
  rcases capture_window_with_some hcw with ⟨root, _, rfl⟩
  exact ⟨root, rfl⟩

/-! ## Concrete elements and environments for witnesses and counterexamples -/

/-- A cached element every one of whose property reads fails. -/
def trivialElement : CachedElement :=
  .mk none none none none none none none none none none none none none

/-- An environment in which every COM infrastructure call succeeds and
`ElementFromHandleBuildCache` resolves handles via `roots`. -/
def okEnv (roots : Int → Option CachedElement) : ComEnv :=
  ⟨0x0, some (), some (), some (), fun _ => some (), roots⟩

/-- An environment in which `CoInitializeEx` fails with `E_FAIL` and
every other call fails as well. -/
def envAllFail : ComEnv :=
  ⟨0x80004005, none, none, none, fun _ => none, fun _ => none⟩

/-- A linear chain of cached elements: `chainElement n` has a single
child `chainElement (n-1)`, so the cached tree is `n + 1` levels deep. -/
def chainElement : Nat → CachedElement
  | 0 => trivialElement
  | n + 1 =>
    .mk none none none none none none none none none none none none
      (some (some 1, [some (chainElement n)]))

/-- Environment resolving handle 1 to a 61-level chain. -/
def chainEnv : ComEnv := okEnv fun h => if h = 1 then some (chainElement 60) else none

/-- A cached element whose child array reports 513 children, all present. -/
def wideElement : CachedElement :=
  .mk none none none none none none none none none none none none
    (some (some 513, List.replicate 513 (some trivialElement)))

/-- Environment resolving handle 1 to `wideElement`. -/
def wideEnv : ComEnv := okEnv fun h => if h = 1 then some wideElement else none

mutual

/-- Deepest `depth` value occurring in a snapshot tree. -/
def maxNodeDepth : TreeElementSnapshot → Nat
  | .mk _ _ _ _ _ _ _ _ _ _ _ _ d cs => max d (maxNodeDepthList cs)

def maxNodeDepthList : List TreeElementSnapshot → Nat
  | [] => 0
  | c :: rest => max (maxNodeDepth c) (maxNodeDepthList rest)

end

/-! ## Claim theorems -/

/-- C3. `capture_window` returns an `Option`, never an error: failure of
apartment-guard acquisition (`CoInitializeEx` returning anything other
than `S_OK`, `S_FALSE` or `RPC_E_CHANGED_MODE`), of automation-factory
creation, of cache-request construction, or of resolving the handle to a
cached root element each yields `none` for that window; and
`capture_tree_raw` (whose return type carries no error) simply drops
such a window, returning the remaining successes unchanged. -/
theorem capture_window_isolates_failures :
    ∀ (env : ComEnv) (h : Int) (d : Nat),
      (env.coInitResult ≠ 0x0 → env.coInitResult ≠ 0x1 →
        env.coInitResult ≠ RPC_E_CHANGED_MODE →
        Core.capture_window env h d = none) ∧
      (env.coCreateInstance = none → Core.capture_window env h d = none) ∧
      (∀ err, build_cache_request env = .error err →
        Core.capture_window env h d = none) ∧
      (env.elementFromHandleBuildCache h = none →
        Core.capture_window env h d = none) ∧
      (∀ (xs ys : List Int) (dd : Nat),
        Core.capture_window env h (min dd 50) = none →
        Core.capture_tree_raw env (xs ++ h :: ys) dd =
          Core.capture_tree_raw env (xs ++ ys) dd) := by
  intro env h d
  refine ⟨?_, ?_, ?_, ?_, ?_⟩
  · intro h0 h1 h2
    have hinit : COMGuard.init env.coInitResult =
        .error (.ComError
          ("CoInitializeEx failed: HRESULT 0x" ++ hex8 env.coInitResult)) := by
      simp [COMGuard.init, h0, h1, h2]
    unfold Core.capture_window
    rw [capture_window_with_eq, hinit]
    rfl
  · intro hcc
    unfold Core.capture_window
    rw [capture_window_with_eq, hcc]
    cases COMGuard.init env.coInitResult <;> rfl
  · intro err herr
    unfold Core.capture_window
    rw [capture_window_with_eq, herr]
    cases COMGuard.init env.coInitResult <;> cases env.coCreateInstance <;> rfl
  · intro hroot
    unfold Core.capture_window
    rw [capture_window_with_eq, hroot]
    cases COMGuard.init env.coInitResult <;> cases env.coCreateInstance <;>
      cases build_cache_request env <;> rfl
  · intro xs ys dd hnone
    by_cases h0 : h = 0
    · subst h0
      simp [Core.capture_tree_raw, List.filter_append]
    · simp [Core.capture_tree_raw, List.filter_append, List.filterMap_append, h0, hnone]

/-- Witness for C3 at `envAllFail` (where `CoInitializeEx` fails with
`E_FAIL = 0x80004005`): the capture of handle 7 yields `none` and the
dispatcher output is the same with or without that handle. -/
theorem capture_window_isolates_failures_witness :
    Core.capture_window envAllFail 7 50 = none ∧
    Core.capture_tree_raw envAllFail ([5] ++ 7 :: [9]) 50 =
      Core.capture_tree_raw envAllFail ([5] ++ [9]) 50 := by
  refine ⟨(capture_window_isolates_failures envAllFail 7 50).1
    (by decide) (by decide) (by decide), ?_⟩
  exact (capture_window_isolates_failures envAllFail 7 50).2.2.2.2 [5] [9] 50 rfl

/-- C6. The dispatcher output is the input sequence with failed windows
removed: it is empty on the empty handle list, a homomorphism for list
append (hence preserves the relative order of the input handles among
the successes), and on a single handle yields exactly that handle's
successful capture, if any.  Rayon's order-preserving parallel collect
is modelled sequentially; inter-window timing is outside the model. -/
theorem capture_tree_raw_order :
    ∀ (env : ComEnv) (d : Nat),
      Core.capture_tree_raw env [] d = [] ∧
      (∀ xs ys, Core.capture_tree_raw env (xs ++ ys) d =
        Core.capture_tree_raw env xs d ++ Core.capture_tree_raw env ys d) ∧
      (∀ h, Core.capture_tree_raw env [h] d =
        (if h = 0 then none else Core.capture_window env h (min d 50)).toList) := by
  intro env d
  refine ⟨rfl, ?_, ?_⟩
  · intro xs ys
    simp [Core.capture_tree_raw, List.filter_append, List.filterMap_append]
  · intro h
    by_cases h0 : h = 0
    · subst h0
      simp [Core.capture_tree_raw]
    · simp [Core.capture_tree_raw, h0]
      rcases hc : Core.capture_window env h (min d 50) with _ | s <;> simp [hc]

/-- C9. A null window handle is filtered out before any capture attempt:
deleting an occurrence of handle 0 anywhere in the input list leaves the
dispatcher output unchanged, in every environment — even one whose
`ElementFromHandleBuildCache` would succeed on handle 0. -/
theorem capture_tree_raw_skips_null_handles :
    ∀ (env : ComEnv) (xs ys : List Int) (d : Nat),
      Core.capture_tree_raw env (xs ++ 0 :: ys) d =
        Core.capture_tree_raw env (xs ++ ys) d := by
  intro env xs ys d
  simp [Core.capture_tree_raw, List.filter_append]

/-- C7. `COMGuard::init` classification: `S_OK` (0x0) and `S_FALSE`
(0x1) yield an owned guard (`should_uninit = true`, no warning);
`RPC_E_CHANGED_MODE` yields a foreign guard (`should_uninit = false`)
and emits the diagnostic warning; every other HRESULT fails with
`ComError` carrying the numeric status code (rendered in the message as
eight hex digits).  `Drop` (modelled by `dropCallsCoUninitialize`, which
the RAII pattern runs exactly once at end of scope) calls
`CoUninitialize` exactly in the owned case. -/
theorem comGuard_init_classification :
    (COMGuard.init 0x0 = .ok (⟨true⟩, false)) ∧
    (COMGuard.init 0x1 = .ok (⟨true⟩, false)) ∧
    (COMGuard.init RPC_E_CHANGED_MODE = .ok (⟨false⟩, true)) ∧
    (∀ hr : Nat, hr ≠ 0x0 → hr ≠ 0x1 → hr ≠ RPC_E_CHANGED_MODE →
      COMGuard.init hr =
        .error (.ComError ("CoInitializeEx failed: HRESULT 0x" ++ hex8 hr))) ∧
    (∀ g : COMGuard, g.dropCallsCoUninitialize = g.should_uninit) := by
  refine ⟨rfl, rfl, rfl, ?_, fun g => rfl⟩
  intro hr h0 h1 h2
  simp [COMGuard.init, h0, h1, h2]

/-- Witness for C7 at the concrete failing HRESULT `E_FAIL`
(0x80004005): `init` fails with the formatted `ComError`. -/
theorem comGuard_init_classification_witness :
    COMGuard.init 0x80004005 =
      .error (.ComError ("CoInitializeEx failed: HRESULT 0x" ++ hex8 0x80004005)) :=
  comGuard_init_classification.2.2.2.1 0x80004005
    (by decide) (by decide) (by decide)

/-- C10. The Python binding `capture_tree` rejects handle lists longer
than `MAX_HANDLE_COUNT = 256` with a runtime error naming the limit,
before any capture work (`capture_tree_raw` is not invoked on the error
path); for lists of at most 256 handles the limit imposes no change and
the call returns exactly the core dispatcher's result. -/
theorem py_capture_tree_handle_limit :
    ∀ (env : ComEnv) (hs : List Int) (md : Option Nat),
      (hs.length > MAX_HANDLE_COUNT →
        Py.capture_tree env hs md =
          .error ("window_handles length " ++ toString hs.length ++
            " exceeds maximum " ++ toString MAX_HANDLE_COUNT)) ∧
      (hs.length ≤ MAX_HANDLE_COUNT →
        Py.capture_tree env hs md =
          .ok (Core.capture_tree_raw env hs (md.getD MAX_TREE_DEPTH))) := by
  intro env hs md
  constructor
  · intro h
    simp [Py.capture_tree, h]
  · intro h
    rw [Py.capture_tree, if_neg (by omega)]

/-- Witness for C10: a list of 257 handles is rejected with the error
message naming the limit. -/
theorem py_capture_tree_handle_limit_witness :
    (List.replicate 257 (1 : Int)).length > MAX_HANDLE_COUNT ∧
    Py.capture_tree envAllFail (List.replicate 257 (1 : Int)) none =
      .error ("window_handles length " ++ toString (List.replicate 257 (1 : Int)).length ++
        " exceeds maximum " ++ toString MAX_HANDLE_COUNT) := by
  have hlen : (List.replicate 257 (1 : Int)).length = 257 := List.length_replicate _ _
  constructor
  · rw [hlen]
    decide
  · exact (py_capture_tree_handle_limit envAllFail (List.replicate 257 (1 : Int)) none).1
      (by rw [hlen]; decide)

/-- C5. The tree walker is total — it returns a `TreeElementSnapshot`
for every cached element (it is a plain function, no error type) — and
each scalar property read that fails collapses to its documented
default: empty string for the five BSTR text fields, `"Unknown"` for
`control_type` (the sixth text field), the all-zero rectangle for
`bounding_rect`, and `false` for the five boolean flags; no single
missing property propagates an error. -/
theorem walk_element_property_defaults :
    ∀ (e : CachedElement) (d m : Nat),
      (e.cachedName = none → (Core.walk_element e d m).name = "") ∧
      (e.cachedAutomationId = none → (Core.walk_element e d m).automation_id = "") ∧
      (e.cachedLocalizedControlType = none →
        (Core.walk_element e d m).localized_control_type = "") ∧
      (e.cachedClassName = none → (Core.walk_element e d m).class_name = "") ∧
      (e.cachedAcceleratorKey = none → (Core.walk_element e d m).accelerator_key = "") ∧
      (e.cachedControlType = none → (Core.walk_element e d m).control_type = "Unknown") ∧
      (e.cachedBoundingRectangle = none →
        (Core.walk_element e d m).bounding_rect = (0, 0, 0, 0)) ∧
      (e.cachedIsOffscreen = none → (Core.walk_element e d m).is_offscreen = false) ∧
      (e.cachedIsEnabled = none → (Core.walk_element e d m).is_enabled = false) ∧
      (e.cachedIsControlElement = none →
        (Core.walk_element e d m).is_control_element = false) ∧
      (e.cachedHasKeyboardFocus = none →
        (Core.walk_element e d m).has_keyboard_focus = false) ∧
      (e.cachedIsKeyboardFocusable = none →
        (Core.walk_element e d m).is_keyboard_focusable = false) := by
  intro e d m
  rw [Core.walk_element_eq]
  refine ⟨?_, ?_, ?_, ?_, ?_, ?_, ?_, ?_, ?_, ?_, ?_, ?_⟩ <;> intro hf <;>
    simp [walkSnap, hf, TreeElementSnapshot.name, TreeElementSnapshot.automation_id,
      TreeElementSnapshot.localized_control_type, TreeElementSnapshot.class_name,
      TreeElementSnapshot.accelerator_key, TreeElementSnapshot.control_type,
      TreeElementSnapshot.bounding_rect, TreeElementSnapshot.is_offscreen,
      TreeElementSnapshot.is_enabled, TreeElementSnapshot.is_control_element,
      TreeElementSnapshot.has_keyboard_focus, TreeElementSnapshot.is_keyboard_focusable]

/-- Witness for C5 at `trivialElement`, whose every property read fails:
the walker still returns a snapshot, carrying the documented defaults. -/
theorem walk_element_property_defaults_witness :
    trivialElement.cachedName = none ∧
    (Core.walk_element trivialElement 0 50).name = "" ∧
    (Core.walk_element trivialElement 0 50).control_type = "Unknown" ∧
    (Core.walk_element trivialElement 0 50).bounding_rect = (0, 0, 0, 0) ∧
    (Core.walk_element trivialElement 0 50).is_enabled = false := by
  refine ⟨rfl, ?_, ?_, ?_, ?_⟩
  · exact (walk_element_property_defaults trivialElement 0 50).1 rfl
  · exact (walk_element_property_defaults trivialElement 0 50).2.2.2.2.2.1 rfl
  · exact (walk_element_property_defaults trivialElement 0 50).2.2.2.2.2.2.1 rfl
  · exact (walk_element_property_defaults trivialElement 0 50).2.2.2.2.2.2.2.2.1 rfl

set_option maxRecDepth 40000 in
/-- C1 counterexample: the wmcp-core dispatcher `capture_tree_raw`
clamps the requested depth to 50, not 200.  On a 61-level cached chain,
a request with `max_depth = 100` (which the claim says is honored, since
`50 < 100 ≤ 200`) yields a snapshot truncated at depth 50, while a walk
with the claimed bound `min 100 200` reaches depth 60. -/
theorem capture_tree_raw_truncates_requested_depth_100 :
    (Core.capture_tree_raw chainEnv [1] 100).map maxNodeDepth = [50] ∧
    maxNodeDepth (Core.walk_element (chainElement 60) 0 (min 100 200)) = 60 ∧
    (50 : Nat) ≠ 60 :=
  ⟨rfl, rfl, by decide⟩

/-- C1 (amended).  The effective recursion-depth bound applied by the
wmcp-core dispatcher `capture_tree_raw` equals `min(d, 50)` — requests
above 50 behave exactly like 50, and no node of any returned snapshot
has depth exceeding `min(d, 50)` — while the legacy single-crate
binding's `capture_tree` is the revision that clamps to `min(d, 200)`
(with default 50 when `d` is omitted, per `unwrap_or(50)`). -/
theorem capture_tree_raw_depth_bound_min_50 :
    ∀ (env : ComEnv) (hs : List Int) (d : Nat),
      Core.capture_tree_raw env hs d = Core.capture_tree_raw env hs (min d 50) ∧
      (∀ s ∈ Core.capture_tree_raw env hs d,
        AllNodes (fun n => n.depth ≤ min d 50) s) ∧
      (∀ (ohs : List Int) (omd : Nat),
        Legacy.capture_tree env ohs (some omd) =
          Legacy.capture_tree env ohs (some (min omd 200))) := by
  intro env hs d
  refine ⟨?_, ?_, ?_⟩
  · simp only [Core.capture_tree_raw]
    rw [min_assoc, min_self]
  · intro s hmem
    rcases mem_capture_tree_raw hmem with ⟨root, rfl⟩
    exact allNodes_depth_le (some MAX_CHILDREN_PER_NODE)
      (min d 50 - 0) root 0 (min d 50) (Nat.zero_le _)
  · intro ohs omd
    simp only [Legacy.capture_tree, Option.getD_some]
    rw [min_assoc, min_self]

/-- Witness for the amended C1 at the chain environment: the snapshot
collected for handle 1 under requested depth 100 satisfies the
`min 100 50` depth bound at every node. -/
theorem capture_tree_raw_depth_bound_min_50_witness :
    AllNodes (fun n => n.depth ≤ min 100 50)
      (Core.walk_element (chainElement 60) 0 (min 100 50)) := by
  have hmem : Core.walk_element (chainElement 60) 0 (min 100 50) ∈
      Core.capture_tree_raw chainEnv [1] 100 := by
    have heq : Core.capture_tree_raw chainEnv [1] 100 =
        [Core.walk_element (chainElement 60) 0 (min 100 50)] := rfl
    rw [heq]
    exact List.mem_singleton.mpr rfl
  exact (capture_tree_raw_depth_bound_min_50 chainEnv [1] 100).2.1 _ hmem

set_option maxRecDepth 40000 in
/-- C2 counterexample: the legacy revision's `collect_children`
(`src/native/src/tree/mod.rs` lines 355–377) applies no cap, so a
capture through the legacy `capture_tree` of a window whose cached root
reports 513 children returns a node with 513 > 512 children — no
truncation, contradicting the claim for that cited revision. -/
theorem legacy_capture_children_exceed_cap :
    (Legacy.capture_tree wideEnv [1] (some 50)).map
      (fun s => s.children.length) = [513] ∧
    ¬ (513 ≤ 512) :=
  ⟨rfl, by decide⟩

/-- C2 (amended).  Snapshots returned by the wmcp-core capture
(`capture_tree_raw`, whose `collect_children` truncates at
`MAX_CHILDREN_PER_NODE = 512` without reporting an error) have at most
512 children at every node; the legacy revision's walker imposes no
such cap. -/
theorem capture_tree_raw_children_le_512 :
    ∀ (env : ComEnv) (hs : List Int) (d : Nat),
      ∀ s ∈ Core.capture_tree_raw env hs d,
        AllNodes (fun n => n.children.length ≤ 512) s := by
  intro env hs d s hmem
  rcases mem_capture_tree_raw hmem with ⟨root, rfl⟩
  exact allNodes_children_le_512 (min d 50 - 0) root 0 (min d 50)

/-- Witness for the amended C2: the chain capture's snapshot satisfies
the 512-child bound at every node. -/
theorem capture_tree_raw_children_le_512_witness :
    AllNodes (fun n => n.children.length ≤ 512)
      (Core.walk_element (chainElement 60) 0 (min 100 50)) := by
  have hmem : Core.walk_element (chainElement 60) 0 (min 100 50) ∈
      Core.capture_tree_raw chainEnv [1] 100 := by
    have heq : Core.capture_tree_raw chainEnv [1] 100 =
        [Core.walk_element (chainElement 60) 0 (min 100 50)] := rfl
    rw [heq]
    exact List.mem_singleton.mpr rfl
  exact capture_tree_raw_children_le_512 chainEnv [1] 100 _ hmem

/-- C4. Every snapshot returned by the wmcp-core capture has root depth
0; every child's depth is its parent's depth plus one (so a node's depth
counts its ancestors); and a node whose depth has reached the effective
`max_depth` bound (`min d 50`) has an empty children list. -/
theorem capture_tree_depth_invariants :
    ∀ (env : ComEnv) (hs : List Int) (d : Nat),
      ∀ s ∈ Core.capture_tree_raw env hs d,
        s.depth = 0 ∧
        AllNodes (fun n => ∀ c ∈ n.children, c.depth = n.depth + 1) s ∧
        AllNodes (fun n => min d 50 ≤ n.depth → n.children = []) s := by
  intro env hs d s hmem
  rcases mem_capture_tree_raw hmem with ⟨root, rfl⟩
  refine ⟨?_, ?_, ?_⟩
  · exact walkAux_depth (some MAX_CHILDREN_PER_NODE) (min d 50 - 0) root 0 (min d 50)
  · exact allNodes_child_depth (some MAX_CHILDREN_PER_NODE) (min d 50 - 0) root 0 (min d 50)
  · exact allNodes_children_empty (some MAX_CHILDREN_PER_NODE) (min d 50 - 0) root 0 (min d 50)

/-- Witness for C4 at the chain capture. -/
theorem capture_tree_depth_invariants_witness :
    (Core.walk_element (chainElement 60) 0 (min 100 50)).depth = 0 ∧
    AllNodes (fun n => ∀ c ∈ n.children, c.depth = n.depth + 1)
      (Core.walk_element (chainElement 60) 0 (min 100 50)) := by
  have hmem : Core.walk_element (chainElement 60) 0 (min 100 50) ∈
      Core.capture_tree_raw chainEnv [1] 100 := by
    have heq : Core.capture_tree_raw chainEnv [1] 100 =
        [Core.walk_element (chainElement 60) 0 (min 100 50)] := rfl
    rw [heq]
    exact List.mem_singleton.mpr rfl
  have h := capture_tree_depth_invariants chainEnv [1] 100 _ hmem
  exact ⟨h.1, h.2.1⟩

/-! ## Serialization round trip (C8) -/

/-- JSON documents, as produced by `serde_json` for snapshot trees.
Numbers are modelled as `Int`: every number a captured snapshot
serializes is an integer (rectangle coordinates are exact `i32` casts,
`depth` is a `usize`), and `serde_json` round-trips such values
exactly. -/
inductive Json : Type where
  | str (s : String)
  | num (n : Int)
  | bool (b : Bool)
  | arr (elems : List Json)
  | obj (fields : List (String × Json))

mutual

/-- Serialization of a snapshot, following `#[derive(Serialize)]` on
`TreeElementSnapshot` (`src/native/wmcp-core/src/tree/element.rs` line
13): serde encodes a named struct as a JSON object whose fields appear
in declaration order, `[f64; 4]` as a 4-element array, and `children`
recursively; this is the shape emitted by the `wmcp-worker` JSON-RPC
responses via `serde_json::to_value`. -/
def serialize : TreeElementSnapshot → Json
  | .mk name aid ct lct cn (l, t, r, b) off en ce kf kfoc ak d cs =>
    .obj [("name", .str name), ("automation_id", .str aid),
      ("control_type", .str ct), ("localized_control_type", .str lct),
      ("class_name", .str cn),
      ("bounding_rect", .arr [.num l, .num t, .num r, .num b]),
      ("is_offscreen", .bool off), ("is_enabled", .bool en),
      ("is_control_element", .bool ce), ("has_keyboard_focus", .bool kf),
      ("is_keyboard_focusable", .bool kfoc), ("accelerator_key", .str ak),
      ("depth", .num d), ("children", .arr (serializeList cs))]

def serializeList : List TreeElementSnapshot → List Json
  | [] => []
  | c :: rest => serialize c :: serializeList rest

end

mutual

/-- Modelled from the spec: the repository serializes snapshots (the
`Serialize` derive on `TreeElementSnapshot` and the `wmcp-worker`
responses) but contains no Rust-side deserializer; the consuming side's
parse is modelled from the spec's round-trip law (§8, "Serializing and
then deserializing a captured tree reproduces an identical structure")
over the same JSON shape the serializer emits. -/
def deserialize : Json → Option TreeElementSnapshot
  | .obj [("name", .str name), ("automation_id", .str aid),
      ("control_type", .str ct), ("localized_control_type", .str lct),
      ("class_name", .str cn),
      ("bounding_rect", .arr [.num l, .num t, .num r, .num b]),
      ("is_offscreen", .bool off), ("is_enabled", .bool en),
      ("is_control_element", .bool ce), ("has_keyboard_focus", .bool kf),
      ("is_keyboard_focusable", .bool kfoc), ("accelerator_key", .str ak),
      ("depth", .num d), ("children", .arr cs)] =>
    if 0 ≤ d then
      (deserializeList cs).map (fun children =>
        .mk name aid ct lct cn (l, t, r, b) off en ce kf kfoc ak d.toNat children)
    else none
  | _ => none

def deserializeList : List Json → Option (List TreeElementSnapshot)
  | [] => some []
  | j :: rest =>
    match deserialize j, deserializeList rest with
    | some t, some ts => some (t :: ts)
    | _, _ => none

end

/-- Node-wise induction principle for the nested snapshot type. -/
theorem TreeElementSnapshot.nodeInduction (motive : TreeElementSnapshot → Prop)
    (h : ∀ (name aid ct lct cn : String) (rect : Int × Int × Int × Int)
      (off en ce kf kfoc : Bool) (ak : String) (d : Nat)
      (cs : List TreeElementSnapshot),
      (∀ c ∈ cs, motive c) →
      motive (.mk name aid ct lct cn rect off en ce kf kfoc ak d cs)) :
    ∀ t, motive t := by
  intro t
  have aux : ∀ k t, sizeOf t ≤ k → motive t := by
    intro k
    induction k with
    | zero =>
      intro t hle
      cases t with
      | mk name aid ct lct cn rect off en ce kf kfoc ak d cs =>
        simp [TreeElementSnapshot.mk.sizeOf_spec] at hle
    | succ k ih =>
      intro t hle
      cases t with
      | mk name aid ct lct cn rect off en ce kf kfoc ak d cs =>
        apply h
        intro c hc
        apply ih
        have h1 : sizeOf c < sizeOf cs := List.sizeOf_lt_of_mem hc
        simp [TreeElementSnapshot.mk.sizeOf_spec] at hle
        omega
  exact aux (sizeOf t) t le_rfl

/-- List version of the round trip, given it node-wise. -/
theorem deserializeList_serializeList (cs : List TreeElementSnapshot)
    (ih : ∀ c ∈ cs, deserialize (serialize c) = some c) :
    deserializeList (serializeList cs) = some cs := by
  induction cs with
  | nil => rfl
  | cons c rest ihr =>
    have hc : deserialize (serialize c) = some c := ih c (List.mem_cons_self c rest)
    have hrest : deserializeList (serializeList rest) = some rest :=
      ihr (fun x hx => ih x (List.mem_cons_of_mem _ hx))
    simp [serializeList, deserializeList, hc, hrest]

/-- C8. Round-trip law: serializing a snapshot tree and deserializing
the result reproduces the tree exactly, field for field, including the
nested `children` lists. -/
theorem deserialize_serialize :
    ∀ t : TreeElementSnapshot, deserialize (serialize t) = some t := by
  intro t
  induction t using TreeElementSnapshot.nodeInduction with
  | h name aid ct lct cn rect off en ce kf kfoc ak d cs ih =>
    obtain ⟨l, tt, r, b⟩ := rect
    have hred :
        deserialize (serialize
          (.mk name aid ct lct cn (l, tt, r, b) off en ce kf kfoc ak d cs)) =
          if (0 : Int) ≤ (d : Int) then
            (deserializeList (serializeList cs)).map (fun children =>
              .mk name aid ct lct cn (l, tt, r, b) off en ce kf kfoc ak
                ((d : Int)).toNat children)
          else none := rfl
    rw [hred, if_pos (Int.natCast_nonneg d), deserializeList_serializeList cs ih]
    simp

end WindowsMcp
